import Mathlib

/-!
Shallow embedding of the schedule-resolution and reminder-matching core of
`pillz_tracker_bot.py`.

Modelling conventions:
* An instant (`datetime.now()`) is a number of seconds since an arbitrary
  epoch (`Nat`).  A calendar date is a day number; `datetime.strptime(d,
  "%Y-%m-%d")` yields the instant `day * secPerDay` (midnight of that day).
* A stored `schedules` row carries its raw fields; `start_date` and
  `schedule_json` are `Option`-valued parse results (`none` models a
  `strptime` / `json.loads` failure on malformed stored data).
* The sqlite `tracking` table is a list of records in insertion order; the
  table has no uniqueness constraint, so an INSERT always appends.
* `now.strftime("%H:%M")` is `current_time_str`, built from zero-padded
  two-digit decimal fields.
-/

namespace PillzTracker

/-- One element of a `schedule_json` array: `{"duration_days": …,
"dosage": …, "time": …}` (see the Gemini prompt and `check_reminders`). -/
structure Phase where
  duration_days : Nat
  dosage : String
  time : String
deriving Repr, DecidableEq

/-- A parsed `schedules` row. -/
structure Schedule where
  user_id : String
  name : String
  start_day : Nat
  phases : List Phase
deriving Repr, DecidableEq

/-- A raw `schedules` row as read by `SELECT user_id, name, start_date,
schedule_json FROM schedules`; the two stored strings are represented by
their parse results (`none` = malformed stored data). -/
structure RawRow where
  user_id : String
  name : String
  start_date : Option Nat
  schedule_json : Option (List Phase)
deriving Repr, DecidableEq

/-- Parsing of a stored row: `json.loads(schedule_json)` plus
`datetime.strptime(start_date_str, "%Y-%m-%d")`; succeeds only when both
stored fields parse. -/
def parseRow (r : RawRow) : Option Schedule :=
  match r.start_date, r.schedule_json with
  | some d, some ps => some ⟨r.user_id, r.name, d, ps⟩
  | _, _ => none

/-- A row of the `tracking` table
(`user_id, name, taken_date, taken_time, logged_at`). -/
structure TrackRecord where
  user_id : String
  name : String
  taken_date : Nat
  taken_time : String
  logged_at : String
deriving Repr, DecidableEq

def secPerDay : Nat := 86400

/-- The calendar date `now.strftime("%Y-%m-%d")` of an instant, as a day
number. -/
def dayOf (now : Nat) : Nat := now / secPerDay

def hourOf (now : Nat) : Nat := now % secPerDay / 3600

def minuteOf (now : Nat) : Nat := now % 3600 / 60

def digitChar (n : Nat) : Char := Char.ofNat (48 + n)

/-- Zero-padded two-digit decimal field, as produced by `strftime` for
`%H` and `%M`. -/
def pad2 (n : Nat) : String := String.mk [digitChar (n / 10), digitChar (n % 10)]

def fmtHM (h m : Nat) : String := pad2 h ++ ":" ++ pad2 m

/-- The string `current_time_str = now.strftime("%H:%M")` computed in
`check_reminders`. -/
def current_time_str (now : Nat) : String := fmtHM (hourOf now) (minuteOf now)

/-- The cumulative-offset walk shared by `check_reminders`,
`get_pending_pills` and `get_todaypills_message`: starting from
`cumulative_days = cum`, return the first period whose window
`[cum, cum + duration)` contains `days_since_start`, together with its
cumulative offset; the loop breaks at the first match. -/
def findActivePhase (elapsed : Nat) : List Phase → Nat → Option (Phase × Nat)
  | [], _ => none
  | p :: ps, cum =>
    if cum ≤ elapsed ∧ elapsed < cum + p.duration_days then some (p, cum)
    else findActivePhase elapsed ps (cum + p.duration_days)

/-- Phase resolution as each handler performs it: skip when
`now < start_date`, else compute `days_since_start = (now - start_date).days`
(truncating division) and walk the phases. -/
def resolve (start_day : Nat) (phases : List Phase) (now : Nat) : Option (Phase × Nat) :=
  if now < start_day * secPerDay then none
  else findActivePhase ((now - start_day * secPerDay) / secPerDay) phases 0

/-- The cumulative-offset windows of a phase list, enumerated in order
starting from offset `cum`. -/
def cumOffsets : List Phase → Nat → List (Phase × Nat)
  | [], _ => []
  | p :: ps, cum => (p, cum) :: cumOffsets ps (cum + p.duration_days)

/-- Modelled from the spec (§4.1): if `as_of` is before `start_date` return
none; otherwise compute `elapsed = whole_days_between(start_date, as_of)`
(truncating) and return the FIRST phase, in order, whose window
`cum ≤ elapsed < cum + duration_days` contains `elapsed`; none when no
window matches. -/
def resolveSpecModel (start_day : Nat) (phases : List Phase) (now : Nat) :
    Option (Phase × Nat) :=
  if now < start_day * secPerDay then none
  else
    let elapsed := (now - start_day * secPerDay) / secPerDay
    (cumOffsets phases 0).find?
      (fun pc => decide (pc.2 ≤ elapsed ∧ elapsed < pc.2 + pc.1.duration_days))

/-- A reminder event `(owner_id, name, dose, time_of_day)` sent by
`check_reminders` via `context.bot.send_message`. -/
structure Reminder where
  user_id : String
  name : String
  dosage : String
  time : String
deriving Repr, DecidableEq

/-- The body of the `for user_id, name, … in all_schedules` loop of
`check_reminders` for one row: parse errors are caught and logged (the row
contributes nothing); otherwise the first active period is found and a
message is sent iff `period['time'] == current_time_str`. -/
def rowEvents (r : RawRow) (now : Nat) : List Reminder :=
  match parseRow r with
  | none => []
  | some s =>
    match resolve s.start_day s.phases now with
    | none => []
    | some (p, _) =>
      if p.time = current_time_str now then [⟨s.user_id, s.name, p.dosage, p.time⟩]
      else []

/-- One tick of `check_reminders`: every stored row (all owners) is
processed in order; the tick's output is the concatenation of each row's
emissions. -/
def check_reminders (rows : List RawRow) (now : Nat) : List Reminder :=
  rows.foldr (fun r acc => rowEvents r now ++ acc) []

/-- The query `SELECT name, taken_time FROM tracking WHERE user_id = ? AND
taken_date = ?`, collected into the `taken_pills` set of `(name, time)`
pairs. -/
def taken_pills (tracking : List TrackRecord) (uid : String) (day : Nat) :
    List (String × String) :=
  (tracking.filter (fun t => t.user_id == uid && t.taken_date == day)).map
    (fun t => (t.name, t.taken_time))

/-- One row's contribution to `todays_pills` in `get_pending_pills`: on any
exception the row is skipped (`except: pass`); otherwise the first active
period appends `{"name": name, "time": period['time']}`. -/
def rowPending (r : RawRow) (now : Nat) : List (String × String) :=
  match parseRow r with
  | none => []
  | some s =>
    match resolve s.start_day s.phases now with
    | none => []
    | some (p, _) => [(s.name, p.time)]

/-- The `todays_pills` list of `get_pending_pills`: rows of this owner
(`WHERE user_id = ?`), each contributing via `rowPending`, in row order. -/
def todays_pills (rows : List RawRow) (uid : String) (now : Nat) :
    List (String × String) :=
  (rows.filter (fun r => r.user_id == uid)).foldr
    (fun r acc => rowPending r now ++ acc) []

/-- The function `get_pending_pills`: todays pills with the already-taken
`(name, time)` slots filtered out. -/
def get_pending_pills (rows : List RawRow) (tracking : List TrackRecord)
    (uid : String) (now : Nat) : List (String × String) :=
  (todays_pills rows uid now).filter
    (fun p => !((taken_pills tracking uid (dayOf now)).contains p))

/-- The list `sorted(pending_pills, key=lambda x: x['time'])` built by
`logpill_command` before rendering the keyboard (Python `sorted` is a
stable sort on the key). -/
def logpill_keyboard_order (rows : List RawRow) (tracking : List TrackRecord)
    (uid : String) (now : Nat) : List (String × String) :=
  (get_pending_pills rows tracking uid now).insertionSort
    (fun a b => a.2 ≤ b.2)

/-- One row's contribution to `todays_pills` in `get_todaypills_message`
(this variant also keeps the dosage). -/
def rowToday (r : RawRow) (now : Nat) : List (String × String × String) :=
  match parseRow r with
  | none => []
  | some s =>
    match resolve s.start_day s.phases now with
    | none => []
    | some (p, _) => [(s.name, p.dosage, p.time)]

/-- The `todays_pills` list of `get_todaypills_message`. -/
def todays_pills_dosed (rows : List RawRow) (uid : String) (now : Nat) :
    List (String × String × String) :=
  (rows.filter (fun r => r.user_id == uid)).foldr
    (fun r acc => rowToday r now ++ acc) []

/-- One rendered line of `/todaypills`: name, dosage, time and whether the
slot is marked taken. -/
structure TodayEntry where
  name : String
  dosage : String
  time : String
  taken : Bool
deriving Repr, DecidableEq

/-- The entries rendered by `get_todaypills_message`: pills sorted by time,
each marked Taken iff `(name, time)` is in the `taken_pills` set. -/
def get_todaypills_entries (rows : List RawRow) (tracking : List TrackRecord)
    (uid : String) (now : Nat) : List TodayEntry :=
  ((todays_pills_dosed rows uid now).insertionSort
      (fun a b => a.2.2 ≤ b.2.2)).map
    (fun p => ⟨p.1, p.2.1, p.2.2,
      (taken_pills tracking uid (dayOf now)).contains (p.1, p.2.2)⟩)

/-- The statement `INSERT INTO tracking ... VALUES (...)`: the table
declared by `init_db` has no UNIQUE constraint, so the insert appends
unconditionally. -/
def insert_tracking (tracking : List TrackRecord) (rec : TrackRecord) :
    List TrackRecord :=
  tracking ++ [rec]

/-- The write performed by `log_selected_pill` (and by `button_handler`)
when the user logs `name` at `time`: insert a tracking row for today. -/
def log_selected_pill (tracking : List TrackRecord)
    (uid nm tm : String) (now : Nat) (logged_at : String) : List TrackRecord :=
  insert_tracking tracking ⟨uid, nm, dayOf now, tm, logged_at⟩

/-- Number of tracking rows for one dose slot
`(owner_id, name, taken_date, taken_time)`. -/
def count_slot (tracking : List TrackRecord) (uid nm : String)
    (day : Nat) (tm : String) : Nat :=
  (tracking.filter (fun t =>
    t.user_id == uid && t.name == nm && t.taken_date == day && t.taken_time == tm)).length

/-- The handler `delete_selected_pill`: `DELETE FROM schedules WHERE
user_id = ? AND name = ?`, returning the remaining store and
`cursor.rowcount`. -/
def delete_selected_pill (rows : List RawRow) (uid choice : String) :
    List RawRow × Nat :=
  let remaining := rows.filter (fun r => !(r.user_id == uid && r.name == choice))
  (remaining, rows.length - remaining.length)


/-- Decision of whether one stored row emits on a tick: the row parses, a
phase is active, and its `time` equals the minute string of the tick. -/
def matches_tick (r : RawRow) (now : Nat) : Bool :=
  match parseRow r with
  | none => false
  | some s =>
    match resolve s.start_day s.phases now with
    | none => false
    | some (p, _) => p.time == current_time_str now

/-- A demonstration store: two schedules of one owner, the first due late
in the day, the second due early. -/
def demoRowLate : RawRow := ⟨"u", "A", some 0, some [⟨1, "one pill", "20:00"⟩]⟩

def demoRowEarly : RawRow := ⟨"u", "B", some 0, some [⟨1, "one pill", "08:00"⟩]⟩

instance : IsTotal (String × String) (fun a b => a.2 ≤ b.2) :=
  ⟨fun a b => le_total a.2 b.2⟩

instance : IsTrans (String × String) (fun a b => a.2 ≤ b.2) :=
  ⟨fun _ _ _ hab hbc => le_trans hab hbc⟩


/-- A stored row whose start date is in the future (day 5), and its parsed
form. -/
def demoFutureRow : RawRow := ⟨"u", "C", some 5, some [⟨1, "one pill", "08:00"⟩]⟩

def demoFutureSched : Schedule := ⟨"u", "C", 5, [⟨1, "one pill", "08:00"⟩]⟩

/-- A stored row whose fields fail to parse (malformed stored data). -/
def demoBadRow : RawRow := ⟨"u", "X", none, none⟩

/-- A stored row whose phase time is the non-zero-padded `"8:00"`, its
parsed form and its single phase. -/
def demoBadTimePhase : Phase := ⟨1, "one pill", "8:00"⟩

def demoBadTimeRow : RawRow := ⟨"u", "D", some 0, some [demoBadTimePhase]⟩

def demoBadTimeSched : Schedule := ⟨"u", "D", 0, [demoBadTimePhase]⟩

/-- Two stored schedules of one owner sharing name and time, and a ledger
holding the single tracking record of that shared slot. -/
def demoDupRowA : RawRow := ⟨"u", "A", some 0, some [⟨1, "one pill", "08:00"⟩]⟩

def demoDupRowB : RawRow := ⟨"u", "A", some 0, some [⟨7, "two pills", "08:00"⟩]⟩

def demoTracking : List TrackRecord := [⟨"u", "A", 0, "08:00", "t0"⟩]

/-! ### Helper lemmas -/

theorem rowEvents_length (r : RawRow) (now : Nat) :
    (rowEvents r now).length = if matches_tick r now then 1 else 0 := by
  unfold rowEvents matches_tick
  cases hp : parseRow r with
  | none => simp
  | some s =>
    cases hr : resolve s.start_day s.phases now with
    | none => simp [hr]
    | some pc =>
      obtain ⟨p, c⟩ := pc
      by_cases h : p.time = current_time_str now <;> simp [hr, h]

theorem check_reminders_nil (now : Nat) : check_reminders [] now = [] := rfl

theorem check_reminders_cons (r : RawRow) (rs : List RawRow) (now : Nat) :
    check_reminders (r :: rs) now = rowEvents r now ++ check_reminders rs now := rfl

theorem check_reminders_append (a b : List RawRow) (now : Nat) :
    check_reminders (a ++ b) now = check_reminders a now ++ check_reminders b now := by
  induction a with
  | nil => simp [check_reminders_nil, List.nil_append]
  | cons r rs ih =>
    rw [List.cons_append, check_reminders_cons, check_reminders_cons, ih, List.append_assoc]

theorem findActivePhase_eq_find (elapsed : Nat) (ps : List Phase) (cum : Nat) :
    findActivePhase elapsed ps cum =
      (cumOffsets ps cum).find?
        (fun pc => decide (pc.2 ≤ elapsed ∧ elapsed < pc.2 + pc.1.duration_days)) := by
  induction ps generalizing cum with
  | nil => rfl
  | cons p ps ih =>
    rw [findActivePhase, cumOffsets, List.find?]
    by_cases h : cum ≤ elapsed ∧ elapsed < cum + p.duration_days
    · simp [h]
    · simp [h, ih]

theorem hourOf_lt (now : Nat) : hourOf now < 24 := by
  unfold hourOf secPerDay; omega

theorem minuteOf_lt (now : Nat) : minuteOf now < 60 := by
  unfold minuteOf; omega

theorem pad2_length (n : Nat) : (pad2 n).length = 2 := rfl

theorem fmtHM_length (h m : Nat) : (fmtHM h m).length = 5 := by
  unfold fmtHM
  rw [String.length_append, String.length_append, pad2_length, pad2_length]
  rfl

/-! ### Claim theorems -/

/-- Claim C1 (code behavior at the failing input): logging the same dose
slot `("7", "Aspirin", day 0, "08:00")` twice stores TWO tracking records;
the second insert succeeds because the `tracking` table created by
`init_db` has no uniqueness constraint, so the claimed at-most-one
invariant and the `AlreadyLogged` rejection do not hold in the code. -/
theorem duplicate_log_stores_two_records :
    count_slot
      (log_selected_pill
        (log_selected_pill [] "7" "Aspirin" "08:00" 0 "T08:00:00")
        "7" "Aspirin" "08:00" 0 "T08:05:00")
      "7" "Aspirin" 0 "08:00" = 2 := by decide

/-- Claim C2: on one tick of `check_reminders`, the number of reminder
events emitted equals the number of stored schedules whose active phase's
`time` equals the tick's minute string — exactly one event per matching
schedule, none for the rest. -/
theorem check_reminders_one_event_per_matching_schedule
    (rows : List RawRow) (now : Nat) :
    (check_reminders rows now).length =
      rows.countP (fun r => matches_tick r now) := by
  induction rows with
  | nil => rfl
  | cons r rs ih =>
    rw [check_reminders_cons, List.length_append, rowEvents_length, ih,
      List.countP_cons]
    exact Nat.add_comm _ _

/-- Claim C3: for a schedule with non-empty phases and positive durations,
and any instant not before the start date, the handlers' cumulative walk
(`resolve`) computes exactly the spec's first-match resolution
(`resolveSpecModel`): truncated whole-day elapsed count, phases walked in
order, first window `cum ≤ elapsed < cum + duration_days` returned, none
when no window contains `elapsed`. -/
theorem resolve_is_first_match (sd : Nat) (phases : List Phase) (now : Nat)
    (_h1 : phases ≠ []) (_h2 : ∀ p ∈ phases, 0 < p.duration_days)
    (h3 : sd * secPerDay ≤ now) :
    resolve sd phases now = resolveSpecModel sd phases now := by
  unfold resolve resolveSpecModel
  rw [if_neg (by omega), if_neg (by omega)]
  exact findActivePhase_eq_find _ _ 0

/-- Witness for C3: the spec's own example schedule, three days of "a"
then an open-ended "b", queried on day 4. -/
theorem resolve_is_first_match_witness :
    ([⟨3, "a", "08:00"⟩, ⟨9999, "b", "08:00"⟩] : List Phase) ≠ [] ∧
    (∀ p ∈ ([⟨3, "a", "08:00"⟩, ⟨9999, "b", "08:00"⟩] : List Phase),
      0 < p.duration_days) ∧
    0 * secPerDay ≤ 4 * secPerDay ∧
    resolve 0 [⟨3, "a", "08:00"⟩, ⟨9999, "b", "08:00"⟩] (4 * secPerDay) =
      resolveSpecModel 0 [⟨3, "a", "08:00"⟩, ⟨9999, "b", "08:00"⟩] (4 * secPerDay) :=
  ⟨by decide, by decide, by decide,
    resolve_is_first_match 0 _ _ (by decide) (by decide) (by decide)⟩

/-- Claim C4: a dose slot appearing in the taken set for the owner on the
day of `as_of` is never in the pending list `get_pending_pills` returns. -/
theorem pending_excludes_taken (rows : List RawRow) (tracking : List TrackRecord)
    (uid : String) (now : Nat) (p : String × String)
    (h : p ∈ get_pending_pills rows tracking uid now) :
    p ∉ taken_pills tracking uid (dayOf now) := by
  unfold get_pending_pills at h
  rw [List.mem_filter] at h
  intro hmem
  have h2 := h.2
  simp at h2
  exact h2 hmem

/-- Witness for C4: one schedule due at 20:00 with nothing yet logged. -/
theorem pending_excludes_taken_witness :
    ("A", "20:00") ∈ get_pending_pills [demoRowLate] [] "u" 0 ∧
    ("A", "20:00") ∉ taken_pills [] "u" (dayOf 0) :=
  ⟨by decide, pending_excludes_taken [demoRowLate] [] "u" 0 ("A", "20:00") (by decide)⟩

/-- Claim C5 counterexample: with the late-dose schedule stored before the
early-dose one, `get_pending_pills` itself returns
`[("A", "20:00"), ("B", "08:00")]` — schedule-store order, not ascending
`time_of_day` order. -/
theorem pending_not_sorted_counterexample :
    ¬ List.Pairwise (fun a b : String × String => a.2 ≤ b.2)
      (get_pending_pills [demoRowLate, demoRowEarly] [] "u" 0) := by
  intro hpair
  have heq : get_pending_pills [demoRowLate, demoRowEarly] [] "u" 0
      = [("A", "20:00"), ("B", "08:00")] := by decide
  rw [heq, List.pairwise_cons] at hpair
  have hle := hpair.1 ("B", "08:00") (List.mem_singleton.mpr rfl)
  exact absurd hle (by rw [not_le, String.lt_iff_toList_lt]; decide)

/-- Claim C5 as amended: `get_pending_pills` returns entries in
schedule-store order; it is the call site (`logpill_command`, modelled by
`logpill_keyboard_order`) that sorts the pending list by `time_of_day`
ascending before display, so the displayed list is always sorted. -/
theorem logpill_keyboard_order_sorted (rows : List RawRow)
    (tracking : List TrackRecord) (uid : String) (now : Nat) :
    List.Pairwise (fun a b : String × String => a.2 ≤ b.2)
      (logpill_keyboard_order rows tracking uid now) :=
  List.sorted_insertionSort _ _

/-- Claim C6: with the instant strictly before the schedule's start date,
phase resolution returns none, the reminder loop emits nothing for the
row, and the pending builder produces no entry for the row. -/
theorem before_start_inactive (r : RawRow) (s : Schedule) (now : Nat)
    (hp : parseRow r = some s) (h : now < s.start_day * secPerDay) :
    resolve s.start_day s.phases now = none ∧
    rowEvents r now = [] ∧ rowPending r now = [] := by
  have hres : resolve s.start_day s.phases now = none := by
    unfold resolve; rw [if_pos h]
  exact ⟨hres, by simp [rowEvents, hp, hres], by simp [rowPending, hp, hres]⟩

/-- Witness for C6: a schedule starting on day 5 queried at instant 0. -/
theorem before_start_inactive_witness :
    parseRow demoFutureRow = some demoFutureSched ∧
    0 < demoFutureSched.start_day * secPerDay ∧
    (resolve demoFutureSched.start_day demoFutureSched.phases 0 = none ∧
     rowEvents demoFutureRow 0 = [] ∧ rowPending demoFutureRow 0 = []) :=
  ⟨rfl, by decide,
    before_start_inactive demoFutureRow demoFutureSched 0 rfl (by decide)⟩

/-- Claim C7: a malformed stored row (one whose `start_date` or
`schedule_json` fails to parse) contributes nothing to a tick of
`check_reminders` and does not disturb the processing of any other row:
the tick's output is exactly the output on the rows before it followed by
the output on the rows after it. -/
theorem malformed_row_skipped (rows1 rows2 : List RawRow) (bad : RawRow)
    (now : Nat) (h : parseRow bad = none) :
    check_reminders (rows1 ++ bad :: rows2) now =
      check_reminders rows1 now ++ check_reminders rows2 now := by
  have hbad : rowEvents bad now = [] := by simp [rowEvents, h]
  rw [check_reminders_append, check_reminders_cons, hbad, List.nil_append]

/-- Witness for C7: a row with unparsable stored data sitting between two
well-formed rows. -/
theorem malformed_row_skipped_witness :
    parseRow demoBadRow = none ∧
    check_reminders [demoRowEarly, demoBadRow, demoRowLate] 28800 =
      check_reminders [demoRowEarly] 28800 ++ check_reminders [demoRowLate] 28800 :=
  ⟨rfl, malformed_row_skipped [demoRowEarly] [demoRowLate] demoBadRow 28800 rfl⟩

/-- Claim C8: deleting by `(owner_id, name)` when no stored schedule of
that owner has that name leaves the schedule store unchanged and reports
`cursor.rowcount = 0`. -/
theorem delete_missing_is_noop (rows : List RawRow) (uid choice : String)
    (h : ∀ r ∈ rows, ¬(r.user_id = uid ∧ r.name = choice)) :
    delete_selected_pill rows uid choice = (rows, 0) := by
  unfold delete_selected_pill
  have hfilter :
      rows.filter (fun r => !(r.user_id == uid && r.name == choice)) = rows := by
    apply List.filter_eq_self.mpr
    intro r hr
    have hc := h r hr
    simp at hc ⊢
    tauto
  rw [hfilter]
  simp

/-- Witness for C8: deleting a never-stored name from a one-row store. -/
theorem delete_missing_is_noop_witness :
    (∀ r ∈ [demoRowLate], ¬(r.user_id = "u" ∧ r.name = "Zzz")) ∧
    delete_selected_pill [demoRowLate] "u" "Zzz" = ([demoRowLate], 0) :=
  ⟨by decide, delete_missing_is_noop [demoRowLate] "u" "Zzz" (by decide)⟩

/-- Claim C9: `check_reminders` matches by exact string equality against
the zero-padded `"HH:MM"` minute string, so a stored phase time that is
not `fmtHM h m` for any valid hour and minute (for example `"8:00"` or
`"08:00:00"`) never triggers an emission at any tick, even while the
phase is active. -/
theorem non_hhmm_time_never_fires (r : RawRow) (s : Schedule) (p : Phase)
    (c now : Nat) (hp : parseRow r = some s)
    (hr : resolve s.start_day s.phases now = some (p, c))
    (hfmt : ¬ ∃ h m, h < 24 ∧ m < 60 ∧ p.time = fmtHM h m) :
    rowEvents r now = [] := by
  have hne : p.time ≠ current_time_str now := by
    intro he
    exact hfmt ⟨hourOf now, minuteOf now, hourOf_lt now, minuteOf_lt now, he⟩
  simp [rowEvents, hp, hr, hne]

/-- Witness for C9: a schedule whose phase time is the non-padded
`"8:00"`, queried at 08:00 exactly, when the phase is active. -/
theorem non_hhmm_time_never_fires_witness :
    parseRow demoBadTimeRow = some demoBadTimeSched ∧
    resolve demoBadTimeSched.start_day demoBadTimeSched.phases 28800 =
      some (demoBadTimePhase, 0) ∧
    (¬ ∃ h m, h < 24 ∧ m < 60 ∧ demoBadTimePhase.time = fmtHM h m) ∧
    rowEvents demoBadTimeRow 28800 = [] := by
  have hfmt : ¬ ∃ h m, h < 24 ∧ m < 60 ∧ demoBadTimePhase.time = fmtHM h m := by
    rintro ⟨h, m, _, _, heq⟩
    have hl := congrArg String.length heq
    rw [fmtHM_length] at hl
    exact absurd hl (by decide)
  exact ⟨rfl, by decide, hfmt,
    non_hhmm_time_never_fires demoBadTimeRow demoBadTimeSched demoBadTimePhase
      0 28800 rfl (by decide) hfmt⟩

/-- Claim C10: dose-slot identity in the pending and today views is just
`(name, time)` for the owner and day, regardless of which stored schedule
row produced the entry: once `(name, time)` is in the taken set, no
pending entry with that name and time survives and every matching
`/todaypills` entry is marked taken. -/
theorem taken_slot_suppresses_all_matches (rows : List RawRow)
    (tracking : List TrackRecord) (uid : String) (now : Nat) (nm tm : String)
    (h : (nm, tm) ∈ taken_pills tracking uid (dayOf now)) :
    (nm, tm) ∉ get_pending_pills rows tracking uid now ∧
    ∀ e ∈ get_todaypills_entries rows tracking uid now,
      e.name = nm → e.time = tm → e.taken = true := by
  constructor
  · intro hmem
    unfold get_pending_pills at hmem
    rw [List.mem_filter] at hmem
    have h2 := hmem.2
    simp at h2
    exact h2 h
  · intro e he hn ht
    unfold get_todaypills_entries at he
    rw [List.mem_map] at he
    obtain ⟨p, hpmem, hpe⟩ := he
    subst hpe
    simp only at hn ht ⊢
    rw [hn, ht]
    simpa using h

/-- Witness for C10: two stored schedules of one owner share the name
`"A"` and the time `"08:00"`; a single tracking record for that slot
suppresses both pending entries and marks both today entries taken. -/
theorem taken_slot_suppresses_all_matches_witness :
    ("A", "08:00") ∈ taken_pills demoTracking "u" (dayOf 0) ∧
    (("A", "08:00") ∉ get_pending_pills [demoDupRowA, demoDupRowB] demoTracking "u" 0 ∧
     ∀ e ∈ get_todaypills_entries [demoDupRowA, demoDupRowB] demoTracking "u" 0,
       e.name = "A" → e.time = "08:00" → e.taken = true) :=
  ⟨by decide,
    taken_slot_suppresses_all_matches [demoDupRowA, demoDupRowB] demoTracking
      "u" 0 "A" "08:00" (by decide)⟩

end PillzTracker
